import Mathlib

/-!
Shallow embedding of the billing and payment-settlement core of the
hospital-backend repository.

Monetary amounts (JS numbers, `DOUBLE PRECISION` in the schema) are modelled
as exact rationals `ℚ`; database tables are lists of rows; Prisma's
auto-increment primary keys are modelled with explicit `next*Id` counters on
the database state.  A Prisma interactive transaction (`prisma.$transaction`)
is modelled as a function `DB → Except Err (α × DB)`: a thrown error aborts
the callback and the caller keeps the pre-transaction state (rollback), which
`runTransaction` makes explicit.
-/

unseal Rat.add

/-- Decidable equality for `Except`, used to evaluate the embedded operations
on concrete database states. -/
instance {ε α : Type _} [DecidableEq ε] [DecidableEq α] : DecidableEq (Except ε α) :=
  fun x y =>
    match x, y with
    | .error e, .error f =>
        decidable_of_iff (e = f) ⟨fun h => by rw [h], fun h => by injection h⟩
    | .error _, .ok _ => .isFalse (fun h => by injection h)
    | .ok _, .error _ => .isFalse (fun h => by injection h)
    | .ok a, .ok b =>
        decidable_of_iff (a = b) ⟨fun h => by rw [h], fun h => by injection h⟩

namespace Hospital

/-- JS numbers, embedded as exact rationals. -/
abbrev Amount := ℚ

/-- The `PriceType` enum of the Prisma schema. -/
inductive PriceType
  | APPOINTMENT
  | LAB
deriving DecidableEq, Repr

/-- A row of the `Price` table (`id, type, code, name, amount, active`). -/
structure Price where
  id : ℕ
  type : PriceType
  code : String
  name : String
  amount : Amount
  active : Bool
deriving DecidableEq, Repr

/-- A row of the `Doctor` table (only the fields the billing core reads). -/
structure Doctor where
  id : ℕ
  name : String
deriving DecidableEq, Repr

/-- A row of the `Appointment` table (billing-relevant fields). -/
structure Appointment where
  id : ℕ
  patientId : ℕ
  doctorId : ℕ
  isPaid : Bool
deriving DecidableEq, Repr

/-- A row of the `LabRequest` table (billing-relevant fields). -/
structure LabRequest where
  id : ℕ
  appointmentId : ℕ
  priceId : ℕ
  isPaid : Bool
deriving DecidableEq, Repr

/-- A row of the `Invoice` table (`id, patientId, totalAmount, isPaid`). -/
structure Invoice where
  id : ℕ
  patientId : ℕ
  totalAmount : Amount
  isPaid : Bool
deriving DecidableEq, Repr

/-- A row of the `InvoiceItem` table. -/
structure InvoiceItem where
  id : ℕ
  invoiceId : ℕ
  description : String
  amount : Amount
deriving DecidableEq, Repr

/-- A row of the `Payment` table.  The `Invoice`/`InvoiceItem`/`Payment`
tables are not created by the migrations under `src/prisma/migrations`
(the `schema.prisma` file is not in the repository snapshot); their columns
are modelled from the spec, which declares `cashierId` as a nullable weak
back-reference to the acting user.  `billing.controller.js` only ever writes
`invoiceId` and `amount` when creating a payment, so the nullable `cashierId`
keeps its `NULL` default. -/
structure Payment where
  id : ℕ
  invoiceId : ℕ
  amount : Amount
  cashierId : Option ℕ
deriving DecidableEq, Repr

/-- The persisted database state: one list per table plus auto-increment
counters for the three tables the billing core inserts into. -/
structure DB where
  doctors : List Doctor
  appointments : List Appointment
  labRequests : List LabRequest
  prices : List Price
  invoices : List Invoice
  invoiceItems : List InvoiceItem
  payments : List Payment
  nextInvoiceId : ℕ
  nextItemId : ℕ
  nextPaymentId : ℕ
deriving DecidableEq, Repr

/-- Errors thrown by the billing core, one constructor per distinct
`throw new Error(...)` message, plus the `TypeError` raised when a JS
`include`d relation is unexpectedly `null` and a field of it is read, and
the `PrismaClientValidationError` Prisma throws when a query's arguments
are rejected before execution. -/
inductive Err
  | invalidInvoiceData
  | invalidPaymentData
  | invoiceNotFound
  | paymentExceedsDue
  | appointmentNotFound
  | appointmentAlreadyPaid
  | appointmentPricingNotConfigured
  | labRequestNotFound
  | labRequestAlreadyPaid
  | labPriceNotConfigured
  | missingRelation (which : String)
  | prismaClientValidationError
deriving DecidableEq, Repr

/-- JS `payments.reduce((sum, p) => sum + p.amount, 0)`. -/
def sumPayments (ps : List Payment) : Amount :=
  ps.foldl (fun sum p => sum + p.amount) 0

/-- The payments recorded against a given invoice
(`include: payments` on an invoice lookup). -/
def paymentsOf (db : DB) (invoiceId : ℕ) : List Payment :=
  db.payments.filter (fun p => p.invoiceId == invoiceId)

namespace Billing

/-- One element of the `items` array passed to `createInvoice`. -/
structure ItemInput where
  description : String
  amount : Amount
deriving DecidableEq, Repr

/-- The `invoiceData` argument of `createInvoice`.  `patientId = none` models
an absent field (`some 0` is also JS-falsy and rejected by `!patientId`);
`items = none` models a value that is not an array. -/
structure InvoiceData where
  patientId : Option ℕ
  items : Option (List ItemInput)
deriving DecidableEq, Repr

/-- The value returned by `createInvoice`: the created invoice with its
`include`d items. -/
structure CreatedInvoice where
  invoice : Invoice
  items : List InvoiceItem
deriving DecidableEq, Repr

/-- `createInvoice` from `src/controllers/billing.controller.js` (lines 4–29):
validate `!patientId || !Array.isArray(items) || items.length === 0`, sum the
item amounts into `totalAmount`, and persist the invoice (with `isPaid:
false`) together with one `InvoiceItem` row per input item. -/
def createInvoice (invoiceData : InvoiceData) (db : DB) :
    Except Err (CreatedInvoice × DB) :=
  match invoiceData.patientId, invoiceData.items with
  | some patientId, some items =>
    if patientId == 0 || items.isEmpty then
      .error .invalidInvoiceData
    else
      let totalAmount := items.foldl (fun sum item => sum + item.amount) 0
      let invoice : Invoice :=
        { id := db.nextInvoiceId, patientId := patientId,
          totalAmount := totalAmount, isPaid := false }
      let newItems : List InvoiceItem :=
        items.enum.map (fun (k, item) =>
          { id := db.nextItemId + k, invoiceId := db.nextInvoiceId,
            description := item.description, amount := item.amount })
      .ok ({ invoice := invoice, items := newItems },
           { db with
               invoices := db.invoices ++ [invoice],
               invoiceItems := db.invoiceItems ++ newItems,
               nextInvoiceId := db.nextInvoiceId + 1,
               nextItemId := db.nextItemId + items.length })
  | _, _ => .error .invalidInvoiceData

/-- The `paymentData` argument of `addPayment`.  `amount = none` models a
value that fails `typeof amount !== 'number'`; `invoiceId = none` models an
absent id (`some 0` is also JS-falsy).  Settlement callers pass a `cashierId`
field, which `addPayment` destructures away and never reads. -/
structure PaymentData where
  invoiceId : Option ℕ
  amount : Option Amount
  cashierId : Option ℕ
deriving DecidableEq, Repr

/-- The value returned by `addPayment`: the created payment and the updated
invoice. -/
structure PaymentResult where
  payment : Payment
  invoice : Invoice
deriving DecidableEq, Repr

/-- `addPayment` from `src/controllers/billing.controller.js` (lines
108–158): validate `typeof amount !== 'number' || amount <= 0 || !invoiceId`,
load the invoice with its payments, reject when `totalPaid + amount >
invoice.totalAmount`, otherwise create a `Payment` row carrying only
`invoiceId` and `amount` and set `invoice.isPaid = (newTotalPaid >=
invoice.totalAmount)`. -/
def addPayment (paymentData : PaymentData) (db : DB) :
    Except Err (PaymentResult × DB) :=
  match paymentData.amount, paymentData.invoiceId with
  | some amount, some invoiceId =>
    if amount ≤ 0 ∨ invoiceId = 0 then
      .error .invalidPaymentData
    else
      match db.invoices.find? (fun invoice => invoice.id == invoiceId) with
      | none => .error .invoiceNotFound
      | some invoice =>
        let totalPaid := sumPayments (paymentsOf db invoiceId)
        if totalPaid + amount > invoice.totalAmount then
          .error .paymentExceedsDue
        else
          let payment : Payment :=
            { id := db.nextPaymentId, invoiceId := invoiceId,
              amount := amount, cashierId := none }
          let newTotalPaid := totalPaid + amount
          let isPaid := decide (newTotalPaid ≥ invoice.totalAmount)
          let updatedInvoice := { invoice with isPaid := isPaid }
          .ok ({ payment := payment, invoice := updatedInvoice },
               { db with
                   payments := db.payments ++ [payment],
                   invoices := db.invoices.map (fun i =>
                     if i.id == invoiceId then { i with isPaid := isPaid } else i),
                   nextPaymentId := db.nextPaymentId + 1 })
  | _, _ => .error .invalidPaymentData

end Billing

/-- The Prisma `$transaction` wrapper around a settlement callback together
with the surrounding `try`/`catch`: a thrown error rolls the transaction
back, so the caller observes the original database state alongside the
error; on success the committed state is observed. -/
def runTransaction {α : Type _} (f : DB → Except Err (α × DB)) (db : DB) :
    Except Err α × DB :=
  match f db with
  | .error e => (.error e, db)
  | .ok (a, db2) => (.ok a, db2)

namespace Cashier

/-- The value returned by the `payAppointment` transaction:
`{ appointment, invoice, payment }`. -/
structure AppointmentSettlement where
  appointment : Appointment
  invoice : Invoice
  payment : Payment
deriving DecidableEq, Repr

/-- The value returned by the `payLabRequest` transaction:
`{ labRequest, invoice, payment }`. -/
structure LabSettlement where
  labRequest : LabRequest
  invoice : Invoice
  payment : Payment
deriving DecidableEq, Repr

/-- The `$transaction` callback of `payAppointment` from
`src/controllers/cashier.controller.js` (lines 109–150): load the
appointment, reject if absent or already paid, resolve the first
`APPOINTMENT`-typed price (`findFirst` with no `active` filter), mark the
appointment paid, create a one-item invoice via `createInvoice`, and record
a full payment via `addPayment` with `cashierId: req.user.id`. -/
def payAppointment (appointmentId : ℕ) (userId : ℕ) (db : DB) :
    Except Err (AppointmentSettlement × DB) :=
  match db.appointments.find? (fun a => a.id == appointmentId) with
  | none => .error .appointmentNotFound
  | some appointment =>
    if appointment.isPaid then .error .appointmentAlreadyPaid
    else
      match db.prices.find? (fun price => price.type == PriceType.APPOINTMENT) with
      | none => .error .appointmentPricingNotConfigured
      | some price =>
        let updatedAppointment := { appointment with isPaid := true }
        let db1 : DB := { db with
          appointments := db.appointments.map (fun (a : Appointment) =>
            if a.id == appointmentId then { a with isPaid := true } else a) }
        match db1.doctors.find? (fun d => d.id == appointment.doctorId) with
        | none => .error (.missingRelation "doctor")
        | some doctor =>
          match Billing.createInvoice
              { patientId := some updatedAppointment.patientId,
                items := some [{ description := "Appointment with " ++ doctor.name,
                                 amount := price.amount }] } db1 with
          | .error e => .error e
          | .ok (created, db2) =>
            match Billing.addPayment
                { invoiceId := some created.invoice.id,
                  amount := some price.amount,
                  cashierId := some userId } db2 with
            | .error e => .error e
            | .ok (paid, db3) =>
              .ok ({ appointment := updatedAppointment,
                     invoice := paid.invoice, payment := paid.payment }, db3)

/-- The `$transaction` callback of `payLabRequest` from
`src/controllers/cashier.controller.js` (lines 173–217): load the lab
request with its linked price, reject if absent, already paid, or without a
price, mark it paid, create a one-item invoice for the lab request's
appointment's patient, and record a full payment with
`cashierId: req.user.id`. -/
def payLabRequest (labRequestId : ℕ) (userId : ℕ) (db : DB) :
    Except Err (LabSettlement × DB) :=
  match db.labRequests.find? (fun l => l.id == labRequestId) with
  | none => .error .labRequestNotFound
  | some labRequest =>
    if labRequest.isPaid then .error .labRequestAlreadyPaid
    else
      match db.prices.find? (fun price => price.id == labRequest.priceId) with
      | none => .error .labPriceNotConfigured
      | some price =>
        let updatedLabRequest := { labRequest with isPaid := true }
        let db1 : DB := { db with
          labRequests := db.labRequests.map (fun (l : LabRequest) =>
            if l.id == labRequestId then { l with isPaid := true } else l) }
        match db1.appointments.find? (fun a => a.id == labRequest.appointmentId) with
        | none => .error (.missingRelation "appointment")
        | some appointment =>
          match Billing.createInvoice
              { patientId := some appointment.patientId,
                items := some [{ description := "Lab Test: " ++ price.name,
                                 amount := price.amount }] } db1 with
          | .error e => .error e
          | .ok (created, db2) =>
            match Billing.addPayment
                { invoiceId := some created.invoice.id,
                  amount := some price.amount,
                  cashierId := some userId } db2 with
            | .error e => .error e
            | .ok (paid, db3) =>
              .ok ({ labRequest := updatedLabRequest,
                     invoice := paid.invoice, payment := paid.payment }, db3)

end Cashier

namespace Appointments

/-- `payAppointment` from `src/controllers/appointments.controller.js`
(lines 72–83), also exposed verbatim as the inline handler of
`PATCH /cashier/appointments/:id/pay` in `src/routes/cashier.router.js`:
it marks the appointment paid and creates no invoice or payment. -/
def payAppointment (appointmentId : ℕ) (db : DB) :
    Except Err (Appointment × DB) :=
  match db.appointments.find? (fun a => a.id == appointmentId) with
  | none => .error .appointmentNotFound
  | some existing =>
    if existing.isPaid then .error .appointmentAlreadyPaid
    else
      .ok ({ existing with isPaid := true },
           { db with
               appointments := db.appointments.map (fun a =>
                 if a.id == appointmentId then { a with isPaid := true } else a) })

end Appointments

namespace Lab

/-- `payLabRequest` from the lab controller (`src/unnamed/part_002`, lines
84–94), also exposed verbatim as the inline handler of
`PATCH /cashier/lab-requests/:id/pay` in `src/routes/cashier.router.js`:
it marks the lab request paid and creates no invoice or payment. -/
def payLabRequest (labRequestId : ℕ) (db : DB) :
    Except Err (LabRequest × DB) :=
  match db.labRequests.find? (fun l => l.id == labRequestId) with
  | none => .error .labRequestNotFound
  | some existing =>
    if existing.isPaid then .error .labRequestAlreadyPaid
    else
      .ok ({ existing with isPaid := true },
           { db with
               labRequests := db.labRequests.map (fun l =>
                 if l.id == labRequestId then { l with isPaid := true } else l) })

end Lab

namespace Reports

/-- The `totalRevenue` figure of `getFinancialReport`
(`src/unnamed/part_003`, lines 7–12):
`prisma.payment.aggregate({ _sum: { amount: true } })`, with `|| 0` turning
an empty aggregate into `0` — the sum of every payment amount. -/
def totalRevenue (db : DB) : Amount :=
  db.payments.foldl (fun sum p => sum + p.amount) 0

end Reports

namespace Admin

/-- The revenue computation of `getDashboardStats`
(`src/controllers/admin.controller.js`, lines 211–237):
`prisma.labRequest.aggregate({ where: { isPaid: true }, _sum: { price: {
amount: true } } })`.  Prisma's `_sum` argument admits only the model's own
numeric scalar fields; `price` is a relation, so argument validation
rejects this query and the call throws a `PrismaClientValidationError` on
every database state instead of returning a sum.  The surrounding
`Promise.all` therefore rejects, the handler's catch answers 500, and
`revenue.total` (`totalRevenue._sum.price?.amount || 0`) is never
computed — the thrown error is the computation's entire observable
behavior, and no figure is ever produced. -/
def dashboardRevenueTotal (_db : DB) : Except Err Amount :=
  .error .prismaClientValidationError

end Admin

end Hospital

namespace Hospital

/-! ### Concrete database states used to evaluate the embedded operations -/

/-- The empty database, with all auto-increment sequences at 1. -/
def dbEmpty : DB :=
  { doctors := [], appointments := [], labRequests := [], prices := [],
    invoices := [], invoiceItems := [], payments := [],
    nextInvoiceId := 1, nextItemId := 1, nextPaymentId := 1 }

/-- The appointment-settlement scenario state of the spec: appointment 7 for
patient 3 with doctor "Dr. Lee", and an active APPOINTMENT price of 50. -/
def dbScenario : DB :=
  { dbEmpty with
      doctors := [{ id := 1, name := "Dr. Lee" }],
      appointments := [{ id := 7, patientId := 3, doctorId := 1, isPaid := false }],
      prices := [{ id := 1, type := .APPOINTMENT, code := "APT", name := "Appointment",
                   amount := 50, active := true }] }

/-- The settlement payload returned by `payAppointment 7 2` on `dbScenario`. -/
def rScenario : Cashier.AppointmentSettlement :=
  { appointment := { id := 7, patientId := 3, doctorId := 1, isPaid := true },
    invoice := { id := 1, patientId := 3, totalAmount := 50, isPaid := true },
    payment := { id := 1, invoiceId := 1, amount := 50, cashierId := none } }

/-- The committed state after `payAppointment 7 2` on `dbScenario`. -/
def dbScenarioAfter : DB :=
  { dbScenario with
      appointments := [{ id := 7, patientId := 3, doctorId := 1, isPaid := true }],
      invoices := [{ id := 1, patientId := 3, totalAmount := 50, isPaid := true }],
      invoiceItems := [{ id := 1, invoiceId := 1,
                         description := "Appointment with Dr. Lee", amount := 50 }],
      payments := [{ id := 1, invoiceId := 1, amount := 50, cashierId := none }],
      nextInvoiceId := 2, nextItemId := 2, nextPaymentId := 2 }

/-- The lab-settlement scenario state of the spec: unpaid lab request 11
linked to the price "Glucose Test" of 20. -/
def dbLabScenario : DB :=
  { dbEmpty with
      doctors := [{ id := 1, name := "Dr. Lee" }],
      appointments := [{ id := 1, patientId := 3, doctorId := 1, isPaid := false }],
      labRequests := [{ id := 11, appointmentId := 1, priceId := 2, isPaid := false }],
      prices := [{ id := 2, type := .LAB, code := "GLU", name := "Glucose Test",
                   amount := 20, active := true }] }

/-- The settlement payload returned by `payLabRequest 11 4` on `dbLabScenario`. -/
def rLabScenario : Cashier.LabSettlement :=
  { labRequest := { id := 11, appointmentId := 1, priceId := 2, isPaid := true },
    invoice := { id := 1, patientId := 3, totalAmount := 20, isPaid := true },
    payment := { id := 1, invoiceId := 1, amount := 20, cashierId := none } }

/-- The committed state after `payLabRequest 11 4` on `dbLabScenario`. -/
def dbLabAfter : DB :=
  { dbLabScenario with
      labRequests := [{ id := 11, appointmentId := 1, priceId := 2, isPaid := true }],
      invoices := [{ id := 1, patientId := 3, totalAmount := 20, isPaid := true }],
      invoiceItems := [{ id := 1, invoiceId := 1,
                         description := "Lab Test: Glucose Test", amount := 20 }],
      payments := [{ id := 1, invoiceId := 1, amount := 20, cashierId := none }],
      nextInvoiceId := 2, nextItemId := 2, nextPaymentId := 2 }

/-- A state with one unpaid appointment and no billing data at all. -/
def dbC1 : DB :=
  { dbEmpty with
      appointments := [{ id := 1, patientId := 3, doctorId := 1, isPaid := false }] }

/-- `dbC1` after the legacy mark-paid endpoint flips the flag. -/
def dbC1After : DB :=
  { dbC1 with
      appointments := [{ id := 1, patientId := 3, doctorId := 1, isPaid := true }] }

/-- A state matching the spec overpayment scenario: one invoice of 50 with
existing payments summing to 30. -/
def dbC4 : DB :=
  { dbEmpty with
      invoices := [{ id := 1, patientId := 3, totalAmount := 50, isPaid := false }],
      payments := [{ id := 1, invoiceId := 1, amount := 30, cashierId := none }],
      nextPaymentId := 2 }

/-- A state with one unpaid invoice of 50 and no payments. -/
def dbC5 : DB :=
  { dbEmpty with
      invoices := [{ id := 1, patientId := 3, totalAmount := 50, isPaid := false }] }

/-- A catalog holding only an INACTIVE appointment price, plus an unpaid
appointment. -/
def dbC7 : DB :=
  { dbEmpty with
      doctors := [{ id := 1, name := "Dr. Lee" }],
      appointments := [{ id := 1, patientId := 3, doctorId := 1, isPaid := false }],
      prices := [{ id := 1, type := .APPOINTMENT, code := "APT", name := "Appointment",
                   amount := 50, active := false }] }

/-- An unpaid appointment with an empty price catalog. -/
def dbNoPrice : DB :=
  { dbEmpty with
      doctors := [{ id := 1, name := "Dr. Lee" }],
      appointments := [{ id := 1, patientId := 3, doctorId := 1, isPaid := false }] }

/-- A state holding an unpaid appointment (price 50) and a lab request of
price 50 already flagged paid without any payment row (reachable through the
legacy lab mark-paid endpoint). -/
def c10state : DB :=
  { dbEmpty with
      doctors := [{ id := 1, name := "Dr. Lee" }],
      appointments := [{ id := 1, patientId := 3, doctorId := 1, isPaid := false }],
      labRequests := [{ id := 11, appointmentId := 1, priceId := 2, isPaid := true }],
      prices := [{ id := 1, type := .APPOINTMENT, code := "APT", name := "Appointment",
                   amount := 50, active := true },
                 { id := 2, type := .LAB, code := "GLU", name := "Glucose Test",
                   amount := 50, active := true }] }

/-- The committed state after settling the appointment of `c10state`. -/
def c10final : DB := (runTransaction (Cashier.payAppointment 1 2) c10state).2

end Hospital

namespace Hospital

/-! ### Helper lemmas about the embedded operations -/

theorem foldl_add_eq_sum {α : Type _} (f : α → Amount) (l : List α) (init : Amount) :
    l.foldl (fun sum x => sum + f x) init = init + (l.map f).sum := by
  induction l generalizing init with
  | nil => simp
  | cons x xs ih =>
      simp only [List.foldl_cons, List.map_cons, List.sum_cons]
      rw [ih]
      ring

theorem sumPayments_go (l : List Payment) (init : Amount) :
    l.foldl (fun sum p => sum + p.amount) init = init + sumPayments l := by
  induction l generalizing init with
  | nil => simp [sumPayments]
  | cons x xs ih =>
      simp only [sumPayments, List.foldl_cons] at *
      rw [ih (init + x.amount), ih (0 + x.amount)]
      ring

theorem sumPayments_nil : sumPayments [] = 0 := rfl

theorem sumPayments_append (l₁ l₂ : List Payment) :
    sumPayments (l₁ ++ l₂) = sumPayments l₁ + sumPayments l₂ := by
  simp only [sumPayments, List.foldl_append]
  rw [sumPayments_go l₂ (List.foldl (fun sum p => sum + p.amount) 0 l₁)]
  rfl

theorem sumPayments_singleton (p : Payment) : sumPayments [p] = p.amount := by
  simp [sumPayments]

theorem find?_append_left_none {α : Type _} (p : α → Bool) (l₁ l₂ : List α)
    (h : ∀ x ∈ l₁, ¬ p x) : (l₁ ++ l₂).find? p = l₂.find? p := by
  rw [List.find?_append, List.find?_eq_none.mpr h]
  rfl

theorem filter_none {α : Type _} (p : α → Bool) (l : List α)
    (h : ∀ x ∈ l, ¬ p x) : l.filter p = [] :=
  List.filter_eq_nil_iff.mpr h

namespace Billing

/-- Full characterization of a `createInvoice` call with a present positive
`patientId` and a single-item list, the exact shape used by the settlement
transactions. -/
theorem createInvoice_single (pid : ℕ) (it : ItemInput) (db : DB) (h : pid ≠ 0) :
    createInvoice { patientId := some pid, items := some [it] } db =
      .ok ({ invoice := { id := db.nextInvoiceId, patientId := pid,
                          totalAmount := it.amount, isPaid := false },
             items := [{ id := db.nextItemId, invoiceId := db.nextInvoiceId,
                         description := it.description, amount := it.amount }] },
           { db with
               invoices := db.invoices ++
                 [{ id := db.nextInvoiceId, patientId := pid,
                    totalAmount := it.amount, isPaid := false }],
               invoiceItems := db.invoiceItems ++
                 [{ id := db.nextItemId, invoiceId := db.nextInvoiceId,
                    description := it.description, amount := it.amount }],
               nextInvoiceId := db.nextInvoiceId + 1,
               nextItemId := db.nextItemId + 1 }) := by
  simp [createInvoice, h, List.enum]

/-- Full characterization of an `addPayment` call against a freshly created
invoice: the invoice is found, no prior payments exist for it, and the
payment amount equals its total, so the payment is recorded and the invoice
flipped to paid. -/
theorem addPayment_fresh (invoiceId : ℕ) (amount : Amount) (cid : Option ℕ)
    (db : DB) (invoice : Invoice)
    (hAmt : 0 < amount) (hNid : invoiceId ≠ 0)
    (hFind : db.invoices.find? (fun i => i.id == invoiceId) = some invoice)
    (hNoPays : ∀ p ∈ db.payments, p.invoiceId ≠ invoiceId)
    (hTot : invoice.totalAmount = amount) :
    addPayment { invoiceId := some invoiceId, amount := some amount,
                 cashierId := cid } db =
      .ok ({ payment := { id := db.nextPaymentId, invoiceId := invoiceId,
                          amount := amount, cashierId := none },
             invoice := { invoice with isPaid := true } },
           { db with
               payments := db.payments ++
                 [{ id := db.nextPaymentId, invoiceId := invoiceId,
                    amount := amount, cashierId := none }],
               invoices := db.invoices.map (fun i =>
                 if i.id == invoiceId then { i with isPaid := true } else i),
               nextPaymentId := db.nextPaymentId + 1 }) := by
  have hpays : paymentsOf db invoiceId = [] := by
    apply filter_none
    intro p hp
    simpa using hNoPays p hp
  simp only [addPayment, hFind, hpays]
  rw [if_neg (by push_neg; exact ⟨hAmt, hNid⟩)]
  rw [if_neg (by simp [sumPayments_nil, hTot])]
  simp [sumPayments_nil, hTot]

end Billing

end Hospital

namespace Hospital

namespace Billing

/-- Whenever `createInvoice` succeeds it appends exactly the returned invoice
and its items, touches no other table, and initializes `isPaid` to `false`. -/
theorem createInvoice_ok (data : InvoiceData) (db : DB) (c : CreatedInvoice)
    (db2 : DB) (h : createInvoice data db = .ok (c, db2)) :
    db2.doctors = db.doctors ∧ db2.appointments = db.appointments ∧
    db2.labRequests = db.labRequests ∧ db2.prices = db.prices ∧
    db2.invoices = db.invoices ++ [c.invoice] ∧
    db2.invoiceItems = db.invoiceItems ++ c.items ∧
    db2.payments = db.payments ∧
    db2.nextPaymentId = db.nextPaymentId ∧
    c.invoice.isPaid = false ∧
    (∀ its, data.items = some its → c.items.length = its.length) := by
  rcases hPat : data.patientId with _ | pid <;>
    rcases hIt : data.items with _ | items <;>
      simp only [createInvoice, hPat, hIt] at h
  · cases h
  · cases h
  · cases h
  · split at h
    · cases h
    · simp only [Except.ok.injEq, Prod.mk.injEq] at h
      obtain ⟨hc, hdb⟩ := h
      subst hc
      subst hdb
      refine ⟨rfl, rfl, rfl, rfl, rfl, rfl, rfl, rfl, rfl, ?_⟩
      intro its hits
      cases hits
      simp

/-- Whenever `addPayment` succeeds it appends exactly the returned payment
(with a `NULL` cashier reference), updates only invoice paid flags, and
touches no other table. -/
theorem addPayment_ok (data : PaymentData) (db : DB) (r : PaymentResult)
    (db2 : DB) (h : addPayment data db = .ok (r, db2)) :
    db2.doctors = db.doctors ∧ db2.appointments = db.appointments ∧
    db2.labRequests = db.labRequests ∧ db2.prices = db.prices ∧
    db2.invoiceItems = db.invoiceItems ∧
    db2.payments = db.payments ++ [r.payment] ∧
    db2.invoices.length = db.invoices.length ∧
    r.payment.cashierId = none := by
  rcases hAm : data.amount with _ | amount <;>
    rcases hId : data.invoiceId with _ | invoiceId <;>
      simp only [addPayment, hAm, hId] at h
  · cases h
  · cases h
  · cases h
  · split at h
    · cases h
    · split at h
      · cases h
      · split at h
        · cases h
        · simp only [Except.ok.injEq, Prod.mk.injEq] at h
          obtain ⟨hr, hdb⟩ := h
          subst hr
          subst hdb
          simp

/-- The only error `createInvoice` ever throws is `Invalid invoice data`. -/
theorem createInvoice_error (data : InvoiceData) (db : DB) (e : Err)
    (h : createInvoice data db = .error e) : e = .invalidInvoiceData := by
  rcases hPat : data.patientId with _ | pid <;>
    rcases hIt : data.items with _ | items <;>
      simp only [createInvoice, hPat, hIt] at h
  · cases h; rfl
  · cases h; rfl
  · cases h; rfl
  · split at h
    · cases h; rfl
    · cases h

/-- The only errors `addPayment` ever throws are `Invalid payment data`,
`Invoice not found` and `Payment exceeds amount due`. -/
theorem addPayment_error (data : PaymentData) (db : DB) (e : Err)
    (h : addPayment data db = .error e) :
    e = .invalidPaymentData ∨ e = .invoiceNotFound ∨ e = .paymentExceedsDue := by
  rcases hAm : data.amount with _ | amount <;>
    rcases hId : data.invoiceId with _ | invoiceId <;>
      simp only [addPayment, hAm, hId] at h
  · cases h; exact .inl rfl
  · cases h; exact .inl rfl
  · cases h; exact .inl rfl
  · split at h
    · cases h; exact .inl rfl
    · split at h
      · cases h; exact .inr (.inl rfl)
      · split at h
        · cases h; exact .inr (.inr rfl)
        · cases h

/-- After every successful `addPayment`, the returned (updated) invoice's
`isPaid` flag agrees with "sum of this invoice's payments in the updated
state ≥ totalAmount", the returned payment is exactly the appended row, and
it references the returned invoice. -/
theorem addPayment_paid_state (data : PaymentData) (db : DB) (r : PaymentResult)
    (db2 : DB) (h : addPayment data db = .ok (r, db2)) :
    (r.invoice.isPaid = true ↔
       sumPayments (paymentsOf db2 r.invoice.id) ≥ r.invoice.totalAmount) ∧
    db2.payments = db.payments ++ [r.payment] ∧
    r.payment.invoiceId = r.invoice.id := by
  rcases hAm : data.amount with _ | amount <;>
    rcases hId : data.invoiceId with _ | invoiceId <;>
      simp only [addPayment, hAm, hId] at h
  · cases h
  · cases h
  · cases h
  · split at h
    · cases h
    next hval =>
      split at h
      · cases h
      next invoice hF =>
        split at h
        · cases h
        next hdue =>
          simp only [Except.ok.injEq, Prod.mk.injEq] at h
          obtain ⟨hr, hdb⟩ := h
          subst hr
          subst hdb
          have hid : invoice.id = invoiceId := by
            have := List.find?_some hF
            simpa using this
          refine ⟨?_, rfl, by simp [hid]⟩
          simp [paymentsOf, List.filter_append, hid, sumPayments_append,
                sumPayments_singleton, decide_eq_true_iff]

end Billing

namespace Cashier

/-- Full characterization of a successful appointment settlement: with the
appointment present and unpaid, an `APPOINTMENT` price and the doctor
resolvable, a positive price amount, and fresh auto-increment counters, the
transaction commits the flipped paid flag, one invoice, one invoice item and
one payment together, and returns them. -/
theorem payAppointment_success
    (db : DB) (appointmentId userId : ℕ)
    (appt : Appointment) (price : Price) (doctor : Doctor)
    (hA : db.appointments.find? (fun a => a.id == appointmentId) = some appt)
    (hUnpaid : appt.isPaid = false)
    (hP : db.prices.find? (fun p => p.type == PriceType.APPOINTMENT) = some price)
    (hD : db.doctors.find? (fun d => d.id == appt.doctorId) = some doctor)
    (hPid : appt.patientId ≠ 0)
    (hAmt : 0 < price.amount)
    (hNid : db.nextInvoiceId ≠ 0)
    (hFreshInv : ∀ inv ∈ db.invoices, inv.id ≠ db.nextInvoiceId)
    (hFreshPay : ∀ p ∈ db.payments, p.invoiceId ≠ db.nextInvoiceId) :
    payAppointment appointmentId userId db =
      .ok ({ appointment := { appt with isPaid := true },
             invoice := { id := db.nextInvoiceId, patientId := appt.patientId,
                          totalAmount := price.amount, isPaid := true },
             payment := { id := db.nextPaymentId, invoiceId := db.nextInvoiceId,
                          amount := price.amount, cashierId := none } },
           { db with
               appointments := db.appointments.map (fun a =>
                 if a.id == appointmentId then { a with isPaid := true } else a),
               invoices := db.invoices ++
                 [{ id := db.nextInvoiceId, patientId := appt.patientId,
                    totalAmount := price.amount, isPaid := true }],
               invoiceItems := db.invoiceItems ++
                 [{ id := db.nextItemId, invoiceId := db.nextInvoiceId,
                    description := "Appointment with " ++ doctor.name,
                    amount := price.amount }],
               payments := db.payments ++
                 [{ id := db.nextPaymentId, invoiceId := db.nextInvoiceId,
                    amount := price.amount, cashierId := none }],
               nextInvoiceId := db.nextInvoiceId + 1,
               nextItemId := db.nextItemId + 1,
               nextPaymentId := db.nextPaymentId + 1 }) := by
  have hfind2 :
      (db.invoices ++ [({ id := db.nextInvoiceId, patientId := appt.patientId,
                          totalAmount := price.amount, isPaid := false } : Invoice)]).find?
          (fun i => i.id == db.nextInvoiceId)
        = some { id := db.nextInvoiceId, patientId := appt.patientId,
                 totalAmount := price.amount, isPaid := false } := by
    rw [find?_append_left_none _ _ _ (by intro x hx; simp [hFreshInv x hx])]
    simp
  have hmap : db.invoices.map (fun i =>
      if i.id == db.nextInvoiceId then { i with isPaid := true } else i) = db.invoices := by
    conv_rhs => rw [← List.map_id db.invoices]
    apply List.map_congr_left
    intro a ha
    simp [hFreshInv a ha]
  have key :=
    Billing.addPayment_fresh db.nextInvoiceId price.amount (some userId)
      { doctors := db.doctors,
        appointments := db.appointments.map (fun (a : Appointment) =>
          if a.id == appointmentId then { a with isPaid := true } else a),
        labRequests := db.labRequests, prices := db.prices,
        invoices := db.invoices ++
          [{ id := db.nextInvoiceId, patientId := appt.patientId,
             totalAmount := price.amount, isPaid := false }],
        invoiceItems := db.invoiceItems ++
          [{ id := db.nextItemId, invoiceId := db.nextInvoiceId,
             description := "Appointment with " ++ doctor.name,
             amount := price.amount }],
        payments := db.payments, nextInvoiceId := db.nextInvoiceId + 1,
        nextItemId := db.nextItemId + 1, nextPaymentId := db.nextPaymentId }
      { id := db.nextInvoiceId, patientId := appt.patientId,
        totalAmount := price.amount, isPaid := false }
      hAmt hNid hfind2 hFreshPay rfl
  simp only [payAppointment, hA, hUnpaid, hP, hD, Bool.false_eq_true, if_false]
  rw [Billing.createInvoice_single _ _ _ hPid]
  dsimp only
  rw [key]
  dsimp only
  simp only [List.map_append, hmap]
  simp


/-- The idempotency guard of `payAppointment`: an appointment whose `isPaid`
flag is already `true` is rejected with the already-paid error. -/
theorem payAppointment_already_paid (db : DB) (appointmentId userId : ℕ)
    (appt : Appointment)
    (hA : db.appointments.find? (fun a => a.id == appointmentId) = some appt)
    (hPaid : appt.isPaid = true) :
    payAppointment appointmentId userId db = .error .appointmentAlreadyPaid := by
  simp [payAppointment, hA, hPaid]

/-- The idempotency guard of `payLabRequest`. -/
theorem payLabRequest_already_paid (db : DB) (labRequestId userId : ℕ)
    (lr : LabRequest)
    (hL : db.labRequests.find? (fun l => l.id == labRequestId) = some lr)
    (hPaid : lr.isPaid = true) :
    payLabRequest labRequestId userId db = .error .labRequestAlreadyPaid := by
  simp [payLabRequest, hL, hPaid]

/-- For an existing unpaid appointment, `payAppointment` fails with the
pricing-not-configured error exactly when `findFirst` on `APPOINTMENT`-typed
prices comes back empty — the `active` flag plays no role. -/
theorem payAppointment_pricing_iff (db : DB) (appointmentId userId : ℕ)
    (appt : Appointment)
    (hA : db.appointments.find? (fun a => a.id == appointmentId) = some appt)
    (hUnpaid : appt.isPaid = false) :
    payAppointment appointmentId userId db = .error .appointmentPricingNotConfigured ↔
      db.prices.find? (fun price => price.type == PriceType.APPOINTMENT) = none := by
  constructor
  · intro h
    rcases hP : db.prices.find? (fun price => price.type == PriceType.APPOINTMENT)
      with _ | price
    · exact hP
    · exfalso
      simp only [payAppointment, hA, hUnpaid, hP, Bool.false_eq_true, if_false] at h
      split at h
      · simp at h
      next doctor hdoctor =>
        split at h
        next e hCI =>
          obtain rfl : e = Err.invalidInvoiceData :=
            Billing.createInvoice_error _ _ _ hCI
          simp at h
        next created db2 hCI =>
          split at h
          next e hAP =>
            rcases Billing.addPayment_error _ _ _ hAP with rfl | rfl | rfl <;> simp at h
          next paid db3 hAP => cases h
  · intro hP
    simp [payAppointment, hA, hUnpaid, hP]

/-- Whenever the `payAppointment` transaction succeeds, all of its writes
are present together in the committed state: the appointment rows with the
settled id are flagged paid, exactly one invoice, one invoice item and one
payment (the returned one, with a `NULL` cashier reference) are appended,
and no other table changes; the returned appointment was found unpaid and
is returned flagged paid. -/
theorem payAppointment_ok_shape (db : DB) (appointmentId userId : ℕ)
    (r : AppointmentSettlement) (db3 : DB)
    (h : payAppointment appointmentId userId db = .ok (r, db3)) :
    db3.appointments = db.appointments.map (fun a =>
      if a.id == appointmentId then { a with isPaid := true } else a) ∧
    db3.labRequests = db.labRequests ∧
    db3.prices = db.prices ∧
    db3.doctors = db.doctors ∧
    db3.invoices.length = db.invoices.length + 1 ∧
    db3.invoiceItems.length = db.invoiceItems.length + 1 ∧
    db3.payments = db.payments ++ [r.payment] ∧
    r.payment.cashierId = none ∧
    r.appointment.isPaid = true ∧
    (∃ appt, db.appointments.find? (fun a => a.id == appointmentId) = some appt ∧
       appt.isPaid = false ∧ r.appointment = { appt with isPaid := true }) := by
  unfold payAppointment at h
  split at h
  · cases h
  next appt hfind =>
    split at h
    next hpaid => cases h
    next hpaid =>
      split at h
      · cases h
      next price hprice =>
        dsimp only at h
        split at h
        · cases h
        next doctor hdoctor =>
          split at h
          · cases h
          next created db2 hCI =>
            split at h
            · cases h
            next paid dbF hAP =>
              simp only [Except.ok.injEq, Prod.mk.injEq] at h
              obtain ⟨hr, hdb⟩ := h
              subst hr
              subst hdb
              obtain ⟨c1, c2, c3, c4, c5, c6, c7, _c8, _c9, c10⟩ :=
                Billing.createInvoice_ok _ _ _ _ hCI
              obtain ⟨a1, a2, a3, a4, a5, a6, a7, a8⟩ :=
                Billing.addPayment_ok _ _ _ _ hAP
              refine ⟨by rw [a2, c2], by rw [a3, c3], by rw [a4, c4],
                      by rw [a1, c1], ?_, ?_, by rw [a6, c7], a8, rfl, ?_⟩
              · rw [a7, c5]
                simp
              · rw [a5, c6]
                simp
                exact c10 _ rfl
              · exact ⟨appt, hfind, by simpa using hpaid, rfl⟩

/-- Whenever the `payLabRequest` transaction succeeds, all of its writes are
present together in the committed state, exactly as for appointments. -/
theorem payLabRequest_ok_shape (db : DB) (labRequestId userId : ℕ)
    (r : LabSettlement) (db3 : DB)
    (h : payLabRequest labRequestId userId db = .ok (r, db3)) :
    db3.labRequests = db.labRequests.map (fun l =>
      if l.id == labRequestId then { l with isPaid := true } else l) ∧
    db3.appointments = db.appointments ∧
    db3.prices = db.prices ∧
    db3.doctors = db.doctors ∧
    db3.invoices.length = db.invoices.length + 1 ∧
    db3.invoiceItems.length = db.invoiceItems.length + 1 ∧
    db3.payments = db.payments ++ [r.payment] ∧
    r.payment.cashierId = none ∧
    r.labRequest.isPaid = true ∧
    (∃ lr, db.labRequests.find? (fun l => l.id == labRequestId) = some lr ∧
       lr.isPaid = false ∧ r.labRequest = { lr with isPaid := true }) := by
  unfold payLabRequest at h
  split at h
  · cases h
  next lr hfind =>
    split at h
    next hpaid => cases h
    next hpaid =>
      split at h
      · cases h
      next price hprice =>
        dsimp only at h
        split at h
        · cases h
        next appointment happt =>
          split at h
          · cases h
          next created db2 hCI =>
            split at h
            · cases h
            next paid dbF hAP =>
              simp only [Except.ok.injEq, Prod.mk.injEq] at h
              obtain ⟨hr, hdb⟩ := h
              subst hr
              subst hdb
              obtain ⟨c1, c2, c3, c4, c5, c6, c7, _c8, _c9, c10⟩ :=
                Billing.createInvoice_ok _ _ _ _ hCI
              obtain ⟨a1, a2, a3, a4, a5, a6, a7, a8⟩ :=
                Billing.addPayment_ok _ _ _ _ hAP
              refine ⟨by rw [a3, c3], by rw [a2, c2], by rw [a4, c4],
                      by rw [a1, c1], ?_, ?_, by rw [a6, c7], a8, rfl, ?_⟩
              · rw [a7, c5]
                simp
              · rw [a5, c6]
                simp
                exact c10 _ rfl
              · exact ⟨lr, hfind, by simpa using hpaid, rfl⟩

/-- Full characterization of a successful lab-request settlement: with the
lab request present and unpaid, its linked price and parent appointment
resolvable, a positive price amount, and fresh auto-increment counters, the
transaction commits the flipped paid flag, one invoice, one invoice item and
one payment together, and returns them. -/
theorem payLabRequest_success
    (db : DB) (labRequestId userId : ℕ)
    (lr : LabRequest) (price : Price) (appointment : Appointment)
    (hL : db.labRequests.find? (fun l => l.id == labRequestId) = some lr)
    (hUnpaid : lr.isPaid = false)
    (hP : db.prices.find? (fun p => p.id == lr.priceId) = some price)
    (hApp : db.appointments.find? (fun a => a.id == lr.appointmentId) = some appointment)
    (hPid : appointment.patientId ≠ 0)
    (hAmt : 0 < price.amount)
    (hNid : db.nextInvoiceId ≠ 0)
    (hFreshInv : ∀ inv ∈ db.invoices, inv.id ≠ db.nextInvoiceId)
    (hFreshPay : ∀ p ∈ db.payments, p.invoiceId ≠ db.nextInvoiceId) :
    payLabRequest labRequestId userId db =
      .ok ({ labRequest := { lr with isPaid := true },
             invoice := { id := db.nextInvoiceId, patientId := appointment.patientId,
                          totalAmount := price.amount, isPaid := true },
             payment := { id := db.nextPaymentId, invoiceId := db.nextInvoiceId,
                          amount := price.amount, cashierId := none } },
           { db with
               labRequests := db.labRequests.map (fun l =>
                 if l.id == labRequestId then { l with isPaid := true } else l),
               invoices := db.invoices ++
                 [{ id := db.nextInvoiceId, patientId := appointment.patientId,
                    totalAmount := price.amount, isPaid := true }],
               invoiceItems := db.invoiceItems ++
                 [{ id := db.nextItemId, invoiceId := db.nextInvoiceId,
                    description := "Lab Test: " ++ price.name,
                    amount := price.amount }],
               payments := db.payments ++
                 [{ id := db.nextPaymentId, invoiceId := db.nextInvoiceId,
                    amount := price.amount, cashierId := none }],
               nextInvoiceId := db.nextInvoiceId + 1,
               nextItemId := db.nextItemId + 1,
               nextPaymentId := db.nextPaymentId + 1 }) := by
  have hfind2 :
      (db.invoices ++ [({ id := db.nextInvoiceId, patientId := appointment.patientId,
                          totalAmount := price.amount, isPaid := false } : Invoice)]).find?
          (fun i => i.id == db.nextInvoiceId)
        = some { id := db.nextInvoiceId, patientId := appointment.patientId,
                 totalAmount := price.amount, isPaid := false } := by
    rw [find?_append_left_none _ _ _ (by intro x hx; simp [hFreshInv x hx])]
    simp
  have hmap : db.invoices.map (fun i =>
      if i.id == db.nextInvoiceId then { i with isPaid := true } else i) = db.invoices := by
    conv_rhs => rw [← List.map_id db.invoices]
    apply List.map_congr_left
    intro a ha
    simp [hFreshInv a ha]
  have key :=
    Billing.addPayment_fresh db.nextInvoiceId price.amount (some userId)
      { doctors := db.doctors,
        appointments := db.appointments,
        labRequests := db.labRequests.map (fun (l : LabRequest) =>
          if l.id == labRequestId then { l with isPaid := true } else l),
        prices := db.prices,
        invoices := db.invoices ++
          [{ id := db.nextInvoiceId, patientId := appointment.patientId,
             totalAmount := price.amount, isPaid := false }],
        invoiceItems := db.invoiceItems ++
          [{ id := db.nextItemId, invoiceId := db.nextInvoiceId,
             description := "Lab Test: " ++ price.name,
             amount := price.amount }],
        payments := db.payments, nextInvoiceId := db.nextInvoiceId + 1,
        nextItemId := db.nextItemId + 1, nextPaymentId := db.nextPaymentId }
      { id := db.nextInvoiceId, patientId := appointment.patientId,
        totalAmount := price.amount, isPaid := false }
      hAmt hNid hfind2 hFreshPay rfl
  simp only [payLabRequest, hL, hUnpaid, hP, hApp, Bool.false_eq_true, if_false]
  rw [Billing.createInvoice_single _ _ _ hPid]
  dsimp only
  rw [key]
  dsimp only
  simp only [List.map_append, hmap]
  simp

end Cashier

end Hospital


section Smoke

open Hospital Hospital.Billing

example :
    createInvoice { patientId := some 3,
                    items := some [{ description := "x", amount := 50 }] } dbEmpty
      = .ok ({ invoice := { id := 1, patientId := 3, totalAmount := 50, isPaid := false },
               items := [{ id := 1, invoiceId := 1, description := "x", amount := 50 }] },
             { dbEmpty with
                 invoices := [{ id := 1, patientId := 3, totalAmount := 50, isPaid := false }],
                 invoiceItems := [{ id := 1, invoiceId := 1, description := "x", amount := 50 }],
                 nextInvoiceId := 2, nextItemId := 2 }) := by
  decide

example :
    createInvoice { patientId := none, items := some [{ description := "x", amount := 50 }] } dbEmpty
      = .error .invalidInvoiceData := by rfl

example : Cashier.payAppointment 7 2 dbScenario = .ok (rScenario, dbScenarioAfter) := by
  decide

example : Cashier.payLabRequest 11 4 dbLabScenario = .ok (rLabScenario, dbLabAfter) := by
  decide

end Smoke

namespace Hospital

/-! ### Claim theorems -/

/-- Claim C4: for an existing invoice and a positive payment amount,
`addPayment` fails with the payment-exceeds-due error exactly when the sum
of the invoice's existing payments plus the new amount strictly exceeds its
`totalAmount`; on any error the persisted state is unchanged; a payment
bringing the total exactly to `totalAmount` is accepted. -/
theorem c4_addPayment_exceeds_due (db : DB) (invoiceId : ℕ) (amount : Amount)
    (cid : Option ℕ) (invoice : Invoice)
    (hAmt : 0 < amount) (hNid : invoiceId ≠ 0)
    (hFind : db.invoices.find? (fun i => i.id == invoiceId) = some invoice) :
    (Billing.addPayment { invoiceId := some invoiceId, amount := some amount,
                          cashierId := cid } db = .error .paymentExceedsDue ↔
      sumPayments (paymentsOf db invoiceId) + amount > invoice.totalAmount) ∧
    (∀ e, (runTransaction (Billing.addPayment { invoiceId := some invoiceId,
                                                amount := some amount,
                                                cashierId := cid }) db).1 = .error e →
      (runTransaction (Billing.addPayment { invoiceId := some invoiceId,
                                            amount := some amount,
                                            cashierId := cid }) db).2 = db) ∧
    (sumPayments (paymentsOf db invoiceId) + amount = invoice.totalAmount →
      ∃ r db2, Billing.addPayment { invoiceId := some invoiceId,
                                    amount := some amount,
                                    cashierId := cid } db = .ok (r, db2)) := by
  have hguard : ¬(amount ≤ 0 ∨ invoiceId = 0) := by
    push_neg
    exact ⟨hAmt, hNid⟩
  refine ⟨?_, ?_, ?_⟩
  · simp only [Billing.addPayment, hFind]
    rw [if_neg hguard]
    split_ifs with hc
    · simp [hc]
    · simp [hc]
  · intro e h
    unfold runTransaction at h ⊢
    rcases hx : Billing.addPayment { invoiceId := some invoiceId,
                                      amount := some amount,
                                      cashierId := cid } db with e2 | ⟨r0, db0⟩
    · rfl
    · rw [hx] at h
      simp at h
  · intro hEq
    have hng : ¬(sumPayments (paymentsOf db invoiceId) + amount > invoice.totalAmount) := by
      rw [hEq]
      exact lt_irrefl _
    simp only [Billing.addPayment, hFind, if_neg hguard, if_neg hng]
    exact ⟨_, _, rfl⟩

/-- Claim C4 witness: the spec overpayment scenario — invoice total 50,
existing payments 30, new amount 30 — is rejected and leaves the state
unchanged. -/
theorem c4_witness :
    Billing.addPayment { invoiceId := some 1, amount := some 30, cashierId := none } dbC4
        = .error .paymentExceedsDue ∧
    (runTransaction (Billing.addPayment { invoiceId := some 1, amount := some 30,
                                           cashierId := none }) dbC4).2 = dbC4 := by
  have h := c4_addPayment_exceeds_due dbC4 1 30 none
      { id := 1, patientId := 3, totalAmount := 50, isPaid := false }
      (by norm_num) (by decide) (by decide)
  exact ⟨h.1.mpr (by decide), h.2.1 .paymentExceedsDue (by decide)⟩

/-- Claim C5: after every successful `addPayment`, the updated invoice
satisfies `isPaid = (sum of this invoice's payments ≥ totalAmount)`;
`addPayment` returns the created payment (the row appended to the payments
table) together with the updated invoice; and `createInvoice`, the only
other writer of invoices, always initializes `isPaid` to `false` rather
than computing it. -/
theorem c5_paid_flag_equation (data : Billing.PaymentData) (db : DB)
    (r : Billing.PaymentResult) (db2 : DB)
    (h : Billing.addPayment data db = .ok (r, db2)) :
    (r.invoice.isPaid = true ↔
      sumPayments (paymentsOf db2 r.invoice.id) ≥ r.invoice.totalAmount) ∧
    db2.payments = db.payments ++ [r.payment] ∧
    r.payment.invoiceId = r.invoice.id ∧
    (∀ d dbx c dby, Billing.createInvoice d dbx = .ok (c, dby) →
      c.invoice.isPaid = false) := by
  obtain ⟨h1, h2, h3⟩ := Billing.addPayment_paid_state data db r db2 h
  exact ⟨h1, h2, h3, fun d dbx c dby hc =>
    (Billing.createInvoice_ok d dbx c dby hc).2.2.2.2.2.2.2.2.1⟩

/-- Claim C5 witness: paying 50 against a fresh invoice of 50 yields an
updated invoice whose `isPaid` flag is `true`, in agreement with the
payment sum. -/
theorem c5_witness :
    ({ id := 1, patientId := 3, totalAmount := 50, isPaid := true } : Invoice).isPaid
      = true := by
  have h := c5_paid_flag_equation
      { invoiceId := some 1, amount := some 50, cashierId := none } dbC5
      { payment := { id := 1, invoiceId := 1, amount := 50, cashierId := none },
        invoice := { id := 1, patientId := 3, totalAmount := 50, isPaid := true } }
      { dbC5 with
          invoices := [{ id := 1, patientId := 3, totalAmount := 50, isPaid := true }],
          payments := [{ id := 1, invoiceId := 1, amount := 50, cashierId := none }],
          nextPaymentId := 2 }
      (by decide)
  exact h.1.mpr (by decide)

/-- Claim C6: `createInvoice` fails (always with the invalid-invoice-data
error) exactly when `patientId` is missing (JS-falsy: absent or `0`) or
`items` is not an array or is empty; on success the created invoice's
`totalAmount` is the sum of the input item amounts, `isPaid` starts `false`,
one `InvoiceItem` is created per input item, and the created items' amounts
sum to `totalAmount`. -/
theorem c6_createInvoice_spec (data : Billing.InvoiceData) (db : DB) :
    (Billing.createInvoice data db = .error .invalidInvoiceData ↔
      data.patientId = none ∨ data.patientId = some 0 ∨
      data.items = none ∨ data.items = some []) ∧
    (∀ e, Billing.createInvoice data db = .error e → e = .invalidInvoiceData) ∧
    (∀ c db2 its, Billing.createInvoice data db = .ok (c, db2) →
      data.items = some its →
      c.invoice.totalAmount = (its.map Billing.ItemInput.amount).sum ∧
      c.invoice.isPaid = false ∧
      c.items.length = its.length ∧
      (c.items.map InvoiceItem.amount).sum = c.invoice.totalAmount) := by
  refine ⟨?_, Billing.createInvoice_error data db, ?_⟩
  · rcases hPat : data.patientId with _ | pid <;>
      rcases hIt : data.items with _ | its <;>
        simp only [Billing.createInvoice, hPat, hIt]
    · simp
    · simp
    · simp
    · split
      next hc =>
        simp only [Bool.or_eq_true, beq_iff_eq, List.isEmpty_iff] at hc
        rcases hc with hc | hc <;> simp [hc]
      next hc =>
        simp only [Bool.or_eq_true, beq_iff_eq, List.isEmpty_iff, not_or] at hc
        simp [hc.1, hc.2]
  · intro c db2 its hok hits
    rcases hPat : data.patientId with _ | pid <;>
      simp only [Billing.createInvoice, hPat, hits] at hok
    · cases hok
    · split at hok
      · cases hok
      next hc =>
        simp only [Except.ok.injEq, Prod.mk.injEq] at hok
        obtain ⟨hc1, hdb⟩ := hok
        subst hc1
        refine ⟨?_, rfl, by simp, ?_⟩
        · show its.foldl (fun sum item => sum + item.amount) 0 = _
          rw [foldl_add_eq_sum]
          simp
        · show ((its.enum.map _).map InvoiceItem.amount).sum = _
          rw [List.map_map]
          have hfn : (InvoiceItem.amount ∘ (fun (x : ℕ × Billing.ItemInput) =>
              ({ id := db.nextItemId + x.1, invoiceId := db.nextInvoiceId,
                 description := x.2.description, amount := x.2.amount } : InvoiceItem)))
              = (Billing.ItemInput.amount ∘ Prod.snd) := rfl
          rw [hfn, ← List.map_map, List.enum_map_snd, foldl_add_eq_sum]
          simp

/-- Claim C6 witness: a valid single-item input creates an invoice of the
item's amount with `isPaid = false`, and empty items are rejected. -/
theorem c6_witness :
    Billing.createInvoice { patientId := some 3, items := some [] } dbEmpty
      = .error .invalidInvoiceData := by
  have h := c6_createInvoice_spec { patientId := some 3, items := some [] } dbEmpty
  exact h.1.mpr (by simp)


/-- Claim C3: a settlement attempt on an event whose `isPaid` flag is
already `true` fails with the already-paid error (for appointments and for
lab requests); consequently, settling the same initially-unpaid appointment
twice from a state with empty billing tables yields one success followed by
the already-paid rejection, with exactly one invoice and one payment in the
final state. -/
theorem c3_already_paid_guard (db : DB) (eventId userId : ℕ) :
    (∀ appt, db.appointments.find? (fun a => a.id == eventId) = some appt →
       appt.isPaid = true →
       Cashier.payAppointment eventId userId db = .error .appointmentAlreadyPaid) ∧
    (∀ lr, db.labRequests.find? (fun l => l.id == eventId) = some lr →
       lr.isPaid = true →
       Cashier.payLabRequest eventId userId db = .error .labRequestAlreadyPaid) ∧
    (∀ userId2 r db3, db.invoices = [] → db.payments = [] →
       Cashier.payAppointment eventId userId db = .ok (r, db3) →
       Cashier.payAppointment eventId userId2 db3 = .error .appointmentAlreadyPaid ∧
       db3.invoices.length = 1 ∧ db3.payments.length = 1) := by
  refine ⟨fun appt hA hPaid =>
            Cashier.payAppointment_already_paid db eventId userId appt hA hPaid,
          fun lr hL hPaid =>
            Cashier.payLabRequest_already_paid db eventId userId lr hL hPaid,
          ?_⟩
  intro userId2 r db3 hInv hPay hok
  obtain ⟨hApps, _, _, _, hInvLen, _, hPays, _, _, appt, hfind, hunpaid, happ⟩ :=
    Cashier.payAppointment_ok_shape db eventId userId r db3 hok
  refine ⟨?_, by simp [hInvLen, hInv], by simp [hPays, hPay]⟩
  have hcomp : ((fun a => a.id == eventId) ∘ (fun (a : Appointment) =>
      if a.id == eventId then { a with isPaid := true } else a))
      = (fun a => a.id == eventId) := by
    funext a
    by_cases hx : a.id = eventId <;> simp [hx]
  have hbeq : appt.id = eventId := by
    have := List.find?_some hfind
    simpa using this
  have hfind3 : db3.appointments.find? (fun a => a.id == eventId)
      = some { appt with isPaid := true } := by
    rw [hApps, List.find?_map, hcomp, hfind]
    simp [hbeq]
  exact Cashier.payAppointment_already_paid db3 eventId userId2 _ hfind3 rfl

/-- Claim C3 witness: settling appointment 7 of the scenario state twice
yields the already-paid rejection on the second call, with exactly one
invoice and one payment afterwards. -/
theorem c3_witness :
    Cashier.payAppointment 7 3 dbScenarioAfter = .error .appointmentAlreadyPaid ∧
    dbScenarioAfter.invoices.length = 1 ∧ dbScenarioAfter.payments.length = 1 :=
  (c3_already_paid_guard dbScenario 7 2).2.2 3 rScenario dbScenarioAfter rfl rfl
    (by decide)

/-- Claim C7 counterexample: on a catalog whose only APPOINTMENT price is
inactive, `payAppointment` succeeds using that inactive price instead of
failing with the pricing-not-configured error, refuting the claim that only
active prices are resolved. -/
theorem c7_counterexample :
    dbC7.prices.all (fun p => !p.active) = true ∧
    Cashier.payAppointment 1 2 dbC7
      = .ok ({ appointment := { id := 1, patientId := 3, doctorId := 1, isPaid := true },
               invoice := { id := 1, patientId := 3, totalAmount := 50, isPaid := true },
               payment := { id := 1, invoiceId := 1, amount := 50, cashierId := none } },
             { dbC7 with
                 appointments := [{ id := 1, patientId := 3, doctorId := 1, isPaid := true }],
                 invoices := [{ id := 1, patientId := 3, totalAmount := 50, isPaid := true }],
                 invoiceItems := [{ id := 1, invoiceId := 1,
                                    description := "Appointment with Dr. Lee", amount := 50 }],
                 payments := [{ id := 1, invoiceId := 1, amount := 50, cashierId := none }],
                 nextInvoiceId := 2, nextItemId := 2, nextPaymentId := 2 }) :=
  ⟨by decide, by decide⟩

/-- Claim C7 amended: for an existing unpaid appointment, `payAppointment`
resolves the first APPOINTMENT-typed price regardless of its `active` flag,
and fails with the pricing-not-configured error exactly when the catalog
holds no APPOINTMENT-typed price at all. -/
theorem c7_pricing_not_configured (db : DB) (appointmentId userId : ℕ)
    (appt : Appointment)
    (hA : db.appointments.find? (fun a => a.id == appointmentId) = some appt)
    (hUnpaid : appt.isPaid = false) :
    Cashier.payAppointment appointmentId userId db
        = .error .appointmentPricingNotConfigured ↔
      db.prices.find? (fun price => price.type == PriceType.APPOINTMENT) = none :=
  Cashier.payAppointment_pricing_iff db appointmentId userId appt hA hUnpaid

/-- Claim C7 amended witness: with an empty catalog, settling an existing
unpaid appointment fails with the pricing-not-configured error. -/
theorem c7_witness :
    Cashier.payAppointment 1 2 dbNoPrice = .error .appointmentPricingNotConfigured :=
  (c7_pricing_not_configured dbNoPrice 1 2
      { id := 1, patientId := 3, doctorId := 1, isPaid := false }
      (by decide) rfl).mpr (by decide)


/-- Claim C2: the settlement transactions are all-or-nothing.  If the
transaction callback throws (event not found, already paid, pricing not
configured, or any invoice/payment error), the caller observes the original
database unchanged — no paid flag flip, no invoice, item or payment row.
On success the committed state carries all of these changes together. -/
theorem c2_settlement_atomicity (db : DB) (eventId userId : ℕ) :
    (∀ e, (runTransaction (Cashier.payAppointment eventId userId) db).1 = .error e →
       (runTransaction (Cashier.payAppointment eventId userId) db).2 = db) ∧
    (∀ r, (runTransaction (Cashier.payAppointment eventId userId) db).1 = .ok r →
       (runTransaction (Cashier.payAppointment eventId userId) db).2.appointments
           = db.appointments.map (fun a =>
               if a.id == eventId then { a with isPaid := true } else a) ∧
       (runTransaction (Cashier.payAppointment eventId userId) db).2.invoices.length
           = db.invoices.length + 1 ∧
       (runTransaction (Cashier.payAppointment eventId userId) db).2.invoiceItems.length
           = db.invoiceItems.length + 1 ∧
       (runTransaction (Cashier.payAppointment eventId userId) db).2.payments
           = db.payments ++ [r.payment]) ∧
    (∀ e, (runTransaction (Cashier.payLabRequest eventId userId) db).1 = .error e →
       (runTransaction (Cashier.payLabRequest eventId userId) db).2 = db) ∧
    (∀ r, (runTransaction (Cashier.payLabRequest eventId userId) db).1 = .ok r →
       (runTransaction (Cashier.payLabRequest eventId userId) db).2.labRequests
           = db.labRequests.map (fun l =>
               if l.id == eventId then { l with isPaid := true } else l) ∧
       (runTransaction (Cashier.payLabRequest eventId userId) db).2.invoices.length
           = db.invoices.length + 1 ∧
       (runTransaction (Cashier.payLabRequest eventId userId) db).2.invoiceItems.length
           = db.invoiceItems.length + 1 ∧
       (runTransaction (Cashier.payLabRequest eventId userId) db).2.payments
           = db.payments ++ [r.payment]) := by
  refine ⟨?_, ?_, ?_, ?_⟩
  · intro e h
    unfold runTransaction at h ⊢
    rcases hx : Cashier.payAppointment eventId userId db with e2 | ⟨r0, db0⟩
    · rfl
    · rw [hx] at h
      exact Except.noConfusion h
  · intro r h
    unfold runTransaction at h ⊢
    rcases hx : Cashier.payAppointment eventId userId db with e2 | ⟨r0, db0⟩
    · rw [hx] at h
      exact Except.noConfusion h
    · rw [hx] at h
      have h2 : (Except.ok r0 : Except Err Cashier.AppointmentSettlement) = .ok r := h
      injection h2 with h3
      subst h3
      obtain ⟨s1, _, _, _, s5, s6, s7, _, _, _⟩ :=
        Cashier.payAppointment_ok_shape db eventId userId r0 db0 hx
      exact ⟨s1, s5, s6, s7⟩
  · intro e h
    unfold runTransaction at h ⊢
    rcases hx : Cashier.payLabRequest eventId userId db with e2 | ⟨r0, db0⟩
    · rfl
    · rw [hx] at h
      exact Except.noConfusion h
  · intro r h
    unfold runTransaction at h ⊢
    rcases hx : Cashier.payLabRequest eventId userId db with e2 | ⟨r0, db0⟩
    · rw [hx] at h
      exact Except.noConfusion h
    · rw [hx] at h
      have h2 : (Except.ok r0 : Except Err Cashier.LabSettlement) = .ok r := h
      injection h2 with h3
      subst h3
      obtain ⟨s1, _, _, _, s5, s6, s7, _, _, _⟩ :=
        Cashier.payLabRequest_ok_shape db eventId userId r0 db0 hx
      exact ⟨s1, s5, s6, s7⟩

/-- Claim C2 witness: a failing settlement (missing appointment) leaves the
empty state untouched; successful appointment and lab settlements commit
their payment row (together with the other writes). -/
theorem c2_witness :
    (runTransaction (Cashier.payAppointment 1 1) dbEmpty).2 = dbEmpty ∧
    (runTransaction (Cashier.payAppointment 7 2) dbScenario).2.payments
        = dbScenario.payments ++ [rScenario.payment] ∧
    (runTransaction (Cashier.payLabRequest 11 4) dbLabScenario).2.payments
        = dbLabScenario.payments ++ [rLabScenario.payment] :=
  ⟨(c2_settlement_atomicity dbEmpty 1 1).1 .appointmentNotFound (by decide),
   ((c2_settlement_atomicity dbScenario 7 2).2.1 rScenario (by decide)).2.2.2,
   ((c2_settlement_atomicity dbLabScenario 11 4).2.2.2 rLabScenario (by decide)).2.2.2⟩


/-- Claim C1 counterexample: the exposed legacy mark-paid endpoint
(`PATCH /api/appointments/:id/pay`, handled by `payAppointment` in
`appointments.controller.js`, with identical inline copies in
`cashier.router.js`) flips an appointment's `isPaid` flag to `true` while
creating no invoice, so a state with a paid appointment and an empty
invoice table is reachable — refuting the claim for "every operation
exposed by the program". -/
theorem c1_counterexample :
    Appointments.payAppointment 1 dbC1
      = .ok ({ id := 1, patientId := 3, doctorId := 1, isPaid := true }, dbC1After) ∧
    dbC1After.appointments
      = [{ id := 1, patientId := 3, doctorId := 1, isPaid := true }] ∧
    dbC1After.invoices = [] :=
  ⟨by decide, by decide, rfl⟩

/-- Claim C1 amended: the cashier-controller settlement transactions do
establish the invariant — whenever `payAppointment` or `payLabRequest`
settles an unpaid event (price resolvable, positive amount, fresh
auto-increment counters), the committed state holds the event flagged paid
together with an invoice that is fully paid: its `isPaid` is `true` and the
payments recorded against it sum exactly to its `totalAmount`.  The legacy
mark-paid endpoints do not establish it (see the counterexample). -/
theorem c1_settlement_invariant (db : DB) (userId : ℕ) :
    (∀ appointmentId appt price doctor,
       db.appointments.find? (fun a => a.id == appointmentId) = some appt →
       appt.isPaid = false →
       db.prices.find? (fun p => p.type == PriceType.APPOINTMENT) = some price →
       db.doctors.find? (fun d => d.id == appt.doctorId) = some doctor →
       appt.patientId ≠ 0 → 0 < price.amount → db.nextInvoiceId ≠ 0 →
       (∀ inv ∈ db.invoices, inv.id ≠ db.nextInvoiceId) →
       (∀ p ∈ db.payments, p.invoiceId ≠ db.nextInvoiceId) →
       ∃ r db3, Cashier.payAppointment appointmentId userId db = .ok (r, db3) ∧
         r.appointment.isPaid = true ∧
         r.invoice ∈ db3.invoices ∧ r.invoice.isPaid = true ∧
         sumPayments (paymentsOf db3 r.invoice.id) = r.invoice.totalAmount) ∧
    (∀ labRequestId lr price appointment,
       db.labRequests.find? (fun l => l.id == labRequestId) = some lr →
       lr.isPaid = false →
       db.prices.find? (fun p => p.id == lr.priceId) = some price →
       db.appointments.find? (fun a => a.id == lr.appointmentId) = some appointment →
       appointment.patientId ≠ 0 → 0 < price.amount → db.nextInvoiceId ≠ 0 →
       (∀ inv ∈ db.invoices, inv.id ≠ db.nextInvoiceId) →
       (∀ p ∈ db.payments, p.invoiceId ≠ db.nextInvoiceId) →
       ∃ r db3, Cashier.payLabRequest labRequestId userId db = .ok (r, db3) ∧
         r.labRequest.isPaid = true ∧
         r.invoice ∈ db3.invoices ∧ r.invoice.isPaid = true ∧
         sumPayments (paymentsOf db3 r.invoice.id) = r.invoice.totalAmount) := by
  constructor
  · intro appointmentId appt price doctor hA hU hP hD hPid hAmt hNid hFI hFP
    refine ⟨_, _,
      Cashier.payAppointment_success db appointmentId userId appt price doctor
        hA hU hP hD hPid hAmt hNid hFI hFP, rfl, by simp, rfl, ?_⟩
    have h1 : db.payments.filter (fun p => p.invoiceId == db.nextInvoiceId) = [] := by
      apply filter_none
      intro p hp
      simpa using hFP p hp
    simp [paymentsOf, List.filter_append, h1, sumPayments_singleton]
  · intro labRequestId lr price appointment hL hU hP hApp hPid hAmt hNid hFI hFP
    refine ⟨_, _,
      Cashier.payLabRequest_success db labRequestId userId lr price appointment
        hL hU hP hApp hPid hAmt hNid hFI hFP, rfl, by simp, rfl, ?_⟩
    have h1 : db.payments.filter (fun p => p.invoiceId == db.nextInvoiceId) = [] := by
      apply filter_none
      intro p hp
      simpa using hFP p hp
    simp [paymentsOf, List.filter_append, h1, sumPayments_singleton]

/-- Claim C1 amended witness: both settlement scenarios commit a paid event
with a fully-paid invoice. -/
theorem c1_witness :
    (∃ r db3, Cashier.payAppointment 7 2 dbScenario = .ok (r, db3) ∧
       r.appointment.isPaid = true ∧
       r.invoice ∈ db3.invoices ∧ r.invoice.isPaid = true ∧
       sumPayments (paymentsOf db3 r.invoice.id) = r.invoice.totalAmount) ∧
    (∃ r db3, Cashier.payLabRequest 11 4 dbLabScenario = .ok (r, db3) ∧
       r.labRequest.isPaid = true ∧
       r.invoice ∈ db3.invoices ∧ r.invoice.isPaid = true ∧
       sumPayments (paymentsOf db3 r.invoice.id) = r.invoice.totalAmount) :=
  ⟨(c1_settlement_invariant dbScenario 2).1 7
      { id := 7, patientId := 3, doctorId := 1, isPaid := false }
      { id := 1, type := .APPOINTMENT, code := "APT", name := "Appointment",
        amount := 50, active := true }
      { id := 1, name := "Dr. Lee" }
      (by decide) rfl (by decide) (by decide) (by decide) (by decide) (by decide)
      (by decide) (by decide),
   (c1_settlement_invariant dbLabScenario 4).2 11
      { id := 11, appointmentId := 1, priceId := 2, isPaid := false }
      { id := 2, type := .LAB, code := "GLU", name := "Glucose Test",
        amount := 20, active := true }
      { id := 1, patientId := 3, doctorId := 1, isPaid := false }
      (by decide) rfl (by decide) (by decide) (by decide) (by decide) (by decide)
      (by decide) (by decide)⟩

/-- Claim C8: evaluating the settlement scenario — `payAppointment` for
appointment 7 with acting cashier user id 2 — shows the committed Payment
row carries no cashier reference at all: `addPayment` persists only
`invoiceId` and `amount`, silently dropping the `cashierId` its settlement
callers pass, so `cashierId` stays `NULL` instead of 2. -/
theorem c8_cashier_id_dropped :
    Cashier.payAppointment 7 2 dbScenario = .ok (rScenario, dbScenarioAfter) ∧
    rScenario.payment.cashierId = none ∧
    dbScenarioAfter.payments.all (fun p => p.cashierId == none) = true ∧
    (none : Option ℕ) ≠ some 2 :=
  ⟨by decide, rfl, by decide, by decide⟩

/-- Claim C9: on every successful settlement the created invoice belongs to
the event's patient and totals the resolved price's amount, is returned
fully paid, the payment equals that amount and references the invoice, and
exactly one line item is appended — `"Appointment with <doctor name>"` for
appointments, `"Lab Test: <price name>"` for lab requests, each of amount
`price.amount`. -/
theorem c9_settlement_result (db : DB) (userId : ℕ) :
    (∀ appointmentId appt price doctor,
       db.appointments.find? (fun a => a.id == appointmentId) = some appt →
       appt.isPaid = false →
       db.prices.find? (fun p => p.type == PriceType.APPOINTMENT) = some price →
       db.doctors.find? (fun d => d.id == appt.doctorId) = some doctor →
       appt.patientId ≠ 0 → 0 < price.amount → db.nextInvoiceId ≠ 0 →
       (∀ inv ∈ db.invoices, inv.id ≠ db.nextInvoiceId) →
       (∀ p ∈ db.payments, p.invoiceId ≠ db.nextInvoiceId) →
       ∃ r db3, Cashier.payAppointment appointmentId userId db = .ok (r, db3) ∧
         r.invoice.patientId = appt.patientId ∧
         r.invoice.totalAmount = price.amount ∧
         r.invoice.isPaid = true ∧
         r.payment.amount = price.amount ∧
         r.payment.invoiceId = r.invoice.id ∧
         db3.invoiceItems = db.invoiceItems ++
           [{ id := db.nextItemId, invoiceId := r.invoice.id,
              description := "Appointment with " ++ doctor.name,
              amount := price.amount }]) ∧
    (∀ labRequestId lr price appointment,
       db.labRequests.find? (fun l => l.id == labRequestId) = some lr →
       lr.isPaid = false →
       db.prices.find? (fun p => p.id == lr.priceId) = some price →
       db.appointments.find? (fun a => a.id == lr.appointmentId) = some appointment →
       appointment.patientId ≠ 0 → 0 < price.amount → db.nextInvoiceId ≠ 0 →
       (∀ inv ∈ db.invoices, inv.id ≠ db.nextInvoiceId) →
       (∀ p ∈ db.payments, p.invoiceId ≠ db.nextInvoiceId) →
       ∃ r db3, Cashier.payLabRequest labRequestId userId db = .ok (r, db3) ∧
         r.invoice.patientId = appointment.patientId ∧
         r.invoice.totalAmount = price.amount ∧
         r.invoice.isPaid = true ∧
         r.payment.amount = price.amount ∧
         r.payment.invoiceId = r.invoice.id ∧
         db3.invoiceItems = db.invoiceItems ++
           [{ id := db.nextItemId, invoiceId := r.invoice.id,
              description := "Lab Test: " ++ price.name,
              amount := price.amount }]) := by
  constructor
  · intro appointmentId appt price doctor hA hU hP hD hPid hAmt hNid hFI hFP
    exact ⟨_, _,
      Cashier.payAppointment_success db appointmentId userId appt price doctor
        hA hU hP hD hPid hAmt hNid hFI hFP, rfl, rfl, rfl, rfl, rfl, rfl⟩
  · intro labRequestId lr price appointment hL hU hP hApp hPid hAmt hNid hFI hFP
    exact ⟨_, _,
      Cashier.payLabRequest_success db labRequestId userId lr price appointment
        hL hU hP hApp hPid hAmt hNid hFI hFP, rfl, rfl, rfl, rfl, rfl, rfl⟩

/-- Claim C9 witness: the two spec scenarios — appointment 7 with Dr. Lee at
price 50, and lab request 11 with the "Glucose Test" price of 20 — produce
exactly the claimed line items and fully-paid invoices. -/
theorem c9_witness :
    (∃ r db3, Cashier.payAppointment 7 2 dbScenario = .ok (r, db3) ∧
       r.invoice.patientId = 3 ∧ r.invoice.totalAmount = 50 ∧
       r.invoice.isPaid = true ∧ r.payment.amount = 50 ∧
       r.payment.invoiceId = r.invoice.id ∧
       db3.invoiceItems = dbScenario.invoiceItems ++
         [{ id := 1, invoiceId := r.invoice.id,
            description := "Appointment with Dr. Lee", amount := 50 }]) ∧
    (∃ r db3, Cashier.payLabRequest 11 4 dbLabScenario = .ok (r, db3) ∧
       r.invoice.patientId = 3 ∧ r.invoice.totalAmount = 20 ∧
       r.invoice.isPaid = true ∧ r.payment.amount = 20 ∧
       r.payment.invoiceId = r.invoice.id ∧
       db3.invoiceItems = dbLabScenario.invoiceItems ++
         [{ id := 1, invoiceId := r.invoice.id,
            description := "Lab Test: Glucose Test", amount := 20 }]) :=
  ⟨(c9_settlement_result dbScenario 2).1 7
      { id := 7, patientId := 3, doctorId := 1, isPaid := false }
      { id := 1, type := .APPOINTMENT, code := "APT", name := "Appointment",
        amount := 50, active := true }
      { id := 1, name := "Dr. Lee" }
      (by decide) rfl (by decide) (by decide) (by decide) (by decide) (by decide)
      (by decide) (by decide),
   (c9_settlement_result dbLabScenario 4).2 11
      { id := 11, appointmentId := 1, priceId := 2, isPaid := false }
      { id := 2, type := .LAB, code := "GLU", name := "Glucose Test",
        amount := 20, active := true }
      { id := 1, patientId := 3, doctorId := 1, isPaid := false }
      (by decide) rfl (by decide) (by decide) (by decide) (by decide) (by decide)
      (by decide) (by decide)⟩

/-- Claim C10 counterexample: at the state reached by settling an
appointment of price 50 (a settled appointment with positive price
exists), `getFinancialReport` computes `totalRevenue = 50`, but
`getDashboardStats` does not compute `revenue.total` at all — its
aggregate nests the `price` relation inside `_sum`, which Prisma rejects,
so the dashboard revenue computation throws a validation error and yields
no figure.  In particular `revenue.total` is not the sum of the paid lab
requests' linked price amounts (50 here), refuting the claimed
characterization and the claimed comparison of two figures. -/
theorem c10_counterexample :
    (runTransaction (Cashier.payAppointment 1 2) c10state).1
      = .ok { appointment := { id := 1, patientId := 3, doctorId := 1, isPaid := true },
              invoice := { id := 1, patientId := 3, totalAmount := 50, isPaid := true },
              payment := { id := 1, invoiceId := 1, amount := 50, cashierId := none } } ∧
    Reports.totalRevenue c10final = 50 ∧
    Admin.dashboardRevenueTotal c10final = .error .prismaClientValidationError ∧
    Admin.dashboardRevenueTotal c10final ≠ .ok 50 ∧
    (Admin.dashboardRevenueTotal c10final).toOption = none :=
  ⟨by decide, by decide, rfl, by decide, rfl⟩

/-- Claim C10 amended: the two revenue computations are not equivalent,
but not in the claimed way.  `getFinancialReport`'s `totalRevenue` is the
always-successful sum of every `Payment.amount` row — in particular, after
settling an appointment from a state with no payments it equals the
(positive) resolved price amount — while `getDashboardStats` never
produces `revenue.total` on any state: its aggregate is invalid Prisma
(`_sum` over the `price` relation), so the computation throws a
`PrismaClientValidationError` and yields no figure, let alone the paid lab
requests' price sum. -/
theorem c10_revenue_not_equivalent (db : DB) :
    Reports.totalRevenue db = sumPayments db.payments ∧
    Admin.dashboardRevenueTotal db = .error .prismaClientValidationError ∧
    (Admin.dashboardRevenueTotal db).toOption = none ∧
    (∀ appointmentId userId (appt : Appointment) (price : Price) (doctor : Doctor),
       db.appointments.find? (fun a => a.id == appointmentId) = some appt →
       appt.isPaid = false →
       db.prices.find? (fun p => p.type == PriceType.APPOINTMENT) = some price →
       db.doctors.find? (fun d => d.id == appt.doctorId) = some doctor →
       appt.patientId ≠ 0 → 0 < price.amount → db.nextInvoiceId ≠ 0 →
       (∀ inv ∈ db.invoices, inv.id ≠ db.nextInvoiceId) →
       (∀ p ∈ db.payments, p.invoiceId ≠ db.nextInvoiceId) →
       db.payments = [] →
       ∀ r db3, Cashier.payAppointment appointmentId userId db = .ok (r, db3) →
         Reports.totalRevenue db3 = price.amount ∧
         Admin.dashboardRevenueTotal db3 = .error .prismaClientValidationError) := by
  refine ⟨rfl, rfl, rfl, ?_⟩
  intro appointmentId userId appt price doctor hA hU hP hD hPid hAmt hNid hFI hFP
    hNoPay r db3 h
  rw [Cashier.payAppointment_success db appointmentId userId appt price doctor
      hA hU hP hD hPid hAmt hNid hFI hFP] at h
  simp only [Except.ok.injEq, Prod.mk.injEq] at h
  obtain ⟨hr, hdb⟩ := h
  have h1 : Reports.totalRevenue db3 = price.amount := by
    rw [← hdb]
    simp [Reports.totalRevenue, hNoPay]
  exact ⟨h1, rfl⟩

/-- Claim C10 amended witness: settling the scenario appointment from a
state with no payments yields total revenue 50 on the financial report,
while the dashboard revenue computation still throws. -/
theorem c10_witness :
    Reports.totalRevenue dbScenarioAfter = 50 ∧
    Admin.dashboardRevenueTotal dbScenarioAfter = .error .prismaClientValidationError :=
  (c10_revenue_not_equivalent dbScenario).2.2.2 7 2
    { id := 7, patientId := 3, doctorId := 1, isPaid := false }
    { id := 1, type := .APPOINTMENT, code := "APT", name := "Appointment",
      amount := 50, active := true }
    { id := 1, name := "Dr. Lee" }
    (by decide) rfl (by decide) (by decide) (by decide) (by decide) (by decide)
    (by decide) (by decide) rfl
    rScenario dbScenarioAfter (by decide)

end Hospital
